import Mathlib

/-!
Verification of the TermChat terminal chat client.

All definitions are shallow embeddings of the Python source:
  * `src/utils/openrouter.py`  — `UniversalLLMClient` request builders and
    response handlers for the four provider families;
  * `src/termchat.py`          — the chat loop (command / canned-reply /
    chat branches, error rollback);
  * `src/utils/commands.py`    — `show_history` display truncation;
  * `src/utils/env_manager.py` — provider registry, `get_active_provider`,
    `delete_api_key`, and the python-dotenv file operations they use.

JSON values are modelled by an inductive type; Python dictionary/list
subscripting, `in` tests and `str()` rendering are modelled with their real
CPython semantics (KeyError / IndexError / TypeError / AttributeError),
because the adapters' `try/except` blocks catch only some of these.
-/

namespace TermChat

/-- JSON values, as produced by `response.json()`; numbers are modelled as
integers (no claim depends on float rendering). -/
inductive Json where
  | null
  | bool (b : Bool)
  | num (n : Int)
  | str (s : String)
  | arr (elems : List Json)
  | obj (fields : List (String × Json))
deriving Repr

mutual

/-- Structural equality on JSON values (Python `==` on parsed JSON). -/
def beqJson : Json → Json → Bool
  | .null, .null => true
  | .bool a, .bool b => a == b
  | .num a, .num b => a == b
  | .str a, .str b => a == b
  | .arr xs, .arr ys => beqJsonList xs ys
  | .obj xs, .obj ys => beqJsonKVs xs ys
  | _, _ => false

/-- Elementwise equality of JSON lists. -/
def beqJsonList : List Json → List Json → Bool
  | [], [] => true
  | x :: xs, y :: ys => beqJson x y && beqJsonList xs ys
  | _, _ => false

/-- Elementwise equality of JSON key-value lists. -/
def beqJsonKVs : List (String × Json) → List (String × Json) → Bool
  | [], [] => true
  | (k1, v1) :: xs, (k2, v2) :: ys => k1 == k2 && beqJson v1 v2 && beqJsonKVs xs ys
  | _, _ => false

end

instance : BEq Json := ⟨beqJson⟩

/-- Python exceptions that the adapter code can raise: `requests`
`raise_for_status` HTTP errors, subscripting errors, attribute errors, and
explicitly raised `Exception(msg)`. -/
inductive PyErr where
  | httpError (status : Nat)
  | keyError
  | indexError
  | typeError
  | attributeError
  | exc (msg : String)
deriving DecidableEq, Repr

/-- Python `repr` of a JSON value (as CPython renders the objects parsed
from JSON): `None`/`True`/`False`, numbers, single-quoted strings,
`[...]` lists and `\x7b...\x7d` dicts. -/
def pyRepr : Json → String
  | .null => "None"
  | .bool true => "True"
  | .bool false => "False"
  | .num n => toString n
  | .str s => "\x27" ++ s ++ "\x27"
  | .arr elems =>
      "[" ++ String.intercalate ", " (elems.attach.map (fun e => pyRepr e.1)) ++ "]"
  | .obj fields =>
      "\x7b" ++
        String.intercalate ", "
          (fields.attach.map (fun f => "\x27" ++ f.1.1 ++ "\x27: " ++ pyRepr f.1.2)) ++
      "\x7d"
decreasing_by
  · have := List.sizeOf_lt_of_mem e.2
    simp only [Json.arr.sizeOf_spec]
    omega
  · have h1 := List.sizeOf_lt_of_mem f.2
    have h2 : sizeOf f.1.2 < sizeOf f.1 := by
      obtain ⟨a, b⟩ := f.1
      simp only [Prod.mk.sizeOf_spec]
      omega
    simp only [Json.obj.sizeOf_spec]
    omega

/-- Python `str` of a JSON value: the string itself for strings, `repr`
otherwise. -/
def pyStr (j : Json) : String :=
  match j with
  | .str s => s
  | _ => pyRepr j

/-- Python subscripting `j[k]` with a string key: dict lookup (missing key
raises `KeyError`); every other JSON value raises `TypeError`. -/
def pyGetKey (j : Json) (k : String) : Except PyErr Json :=
  match j with
  | .obj fields =>
      match fields.lookup k with
      | some v => .ok v
      | none => .error .keyError
  | _ => .error .typeError

/-- Python subscripting `j[i]` with a non-negative integer: list/string
indexing (out of range raises `IndexError`), dict raises `KeyError`
(an integer is just an absent key), everything else raises `TypeError`. -/
def pyGetIdx (j : Json) (i : Nat) : Except PyErr Json :=
  match j with
  | .arr elems =>
      match elems.get? i with
      | some v => .ok v
      | none => .error .indexError
  | .str s =>
      match s.data.get? i with
      | some c => .ok (.str (String.mk [c]))
      | none => .error .indexError
  | .obj _ => .error .keyError
  | _ => .error .typeError

/-- Whether `needle` occurs as a contiguous run inside `hay`. -/
def subOccursList (hay needle : List Char) : Bool :=
  (hay.take needle.length == needle) ||
    match hay with
    | [] => false
    | _ :: t => subOccursList t needle

/-- Whether `sub` occurs as a substring of `s` (Python `sub in s` on
strings; Python strings are character sequences). -/
def strContainsSub (s sub : String) : Bool :=
  subOccursList s.data sub.data

/-- Python `str.lower` (characterwise). -/
def pyLower (s : String) : String :=
  String.mk (s.data.map Char.toLower)

/-- Python `str.strip()` with no argument: leading and trailing whitespace
removed. -/
def pyStrip (s : String) : String :=
  String.mk (((s.data.dropWhile Char.isWhitespace).reverse.dropWhile
    Char.isWhitespace).reverse)

/-- Python `str.startswith`. -/
def pyStartsWith (s pre : String) : Bool :=
  s.data.take pre.data.length == pre.data

/-- Helper for Python `str.split()`: accumulates the current word
(reversed) and splits on runs of whitespace, discarding empty pieces. -/
def pySplitWsAux : List Char → List Char → List String
  | [], acc => if acc.isEmpty then [] else [String.mk acc.reverse]
  | c :: t, acc =>
      if c.isWhitespace then
        if acc.isEmpty then pySplitWsAux t []
        else String.mk acc.reverse :: pySplitWsAux t []
      else pySplitWsAux t (c :: acc)

/-- Python `str.split()` with no argument: split on whitespace runs,
no empty pieces. -/
def pySplitWs (s : String) : List String :=
  pySplitWsAux s.data []

/-- Scanner for Python `str.replace`: replaces each non-overlapping
occurrence of `old` (left to right); `fuel` bounds the scan and is
instantiated with the string length, which suffices because every step
consumes at least one character when `old` is non-empty (every use in the
source has `old = "_API_KEY"`). -/
def pyReplaceAux (old new : List Char) : Nat → List Char → List Char
  | 0, s => s
  | _ + 1, [] => []
  | fuel + 1, c :: t =>
      if ((c :: t).take old.length == old) && !old.isEmpty then
        new ++ pyReplaceAux old new fuel ((c :: t).drop old.length)
      else
        c :: pyReplaceAux old new fuel t

/-- Python `str.replace(old, new)` for non-empty `old`. -/
def pyReplace (s old new : String) : String :=
  String.mk (pyReplaceAux old.data new.data s.data.length s.data)

/-- Python membership test `needle in j`: key membership for dicts, element
membership for lists, substring test for strings; `TypeError` for
non-iterable values. -/
def pyInStr (needle : String) (j : Json) : Except PyErr Bool :=
  match j with
  | .obj fields => .ok (fields.lookup needle).isSome
  | .arr elems => .ok (elems.contains (.str needle))
  | .str s => .ok (strContainsSub s needle)
  | _ => .error .typeError

/-- `requests.Response.raise_for_status`: raises `HTTPError` exactly for
status codes in [400, 600). -/
def raise_for_status (status : Nat) : Except PyErr Unit :=
  if 400 ≤ status ∧ status < 600 then .error (.httpError status) else .ok ()

/-! ## Response Adapter (`src/utils/openrouter.py`)

Each provider family's handler is split into the request-body builder (a pure
function of the transcript) and the response handler (a function of the HTTP
status and the decoded JSON body).  `get_response` dispatches on substrings of
the provider display name. -/

/-- One chat message: `{"role": ..., "content": ...}`. -/
structure Message where
  role : String
  content : String
deriving DecidableEq, Repr

/-- One entry of the Google request's `parts` list: `{"text": ...}`. -/
structure GooglePart where
  text : String
deriving DecidableEq, Repr

/-- One entry of the Google request's `contents` list:
`{"role": ..., "parts": [...]}`. -/
structure GoogleContent where
  role : String
  parts : List GooglePart
deriving DecidableEq, Repr

/-- The `contents` list built by `_get_google_response`
(`openrouter.py` lines 134-141): each message becomes
`{"role": role, "parts": [{"text": content}]}` where
`role = "user" if msg["role"] == "user" else "model"`. -/
def googleContents (msgs : List Message) : List GoogleContent :=
  msgs.map fun m =>
    { role := if m.role = "user" then "user" else "model",
      parts := [{ text := m.content }] }

/-- The Google role translation as the specification words it
("assistant" → "model", everything else → "user"); stated only to be
compared with `googleContents`, which is translated from the source. -/
def specGoogleContents (msgs : List Message) : List GoogleContent :=
  msgs.map fun m =>
    { role := if m.role = "assistant" then "model" else "user",
      parts := [{ text := m.content }] }

/-- The Anthropic request body built by `_get_anthropic_response`. -/
structure AnthropicBody where
  model : String
  messages : List Message
  max_tokens : Nat
  system : Option String
deriving DecidableEq, Repr

/-- The message loop of `_get_anthropic_response` (`openrouter.py` lines
99-109): a fold over the transcript keeping the content of the most recent
system message in `system_message` and appending every non-system message to
`user_messages`. -/
def anthropicSplit : List Message → String → List Message → String × List Message
  | [], system_message, user_messages => (system_message, user_messages)
  | m :: rest, system_message, user_messages =>
      if m.role = "system" then
        anthropicSplit rest m.content user_messages
      else
        anthropicSplit rest system_message (user_messages ++ [m])

/-- The full Anthropic request body (`openrouter.py` lines 111-118):
`max_tokens` is fixed at 4096 and the `system` field is set only when the
accumulated `system_message` is truthy (non-empty). -/
def anthropicBody (model : String) (msgs : List Message) : AnthropicBody :=
  let p := anthropicSplit msgs "" []
  { model := model
    messages := p.2
    max_tokens := 4096
    system := if p.1 = "" then none else some p.1 }

/-- The HuggingFace prompt (`openrouter.py` line 171): newline-joined
`"role: content"` lines. -/
def hfPrompt (msgs : List Message) : String :=
  String.intercalate "\n" (msgs.map fun m => m.role ++ ": " ++ m.content)

/-- Reply extraction for the OpenAI-compatible family:
`data["choices"][0]["message"]["content"]`. -/
def openaiExtract (data : Json) : Except PyErr Json := do
  let a ← pyGetKey data "choices"
  let b ← pyGetIdx a 0
  let c ← pyGetKey b "message"
  pyGetKey c "content"

/-- `_get_openai_compatible_response` after the POST: `raise_for_status`,
then extraction from the decoded body. -/
def openaiCompatibleResponse (status : Nat) (data : Json) : Except PyErr Json := do
  let _ ← raise_for_status status
  openaiExtract data

/-- Reply extraction for the Anthropic family: `data["content"][0]["text"]`. -/
def anthropicExtract (data : Json) : Except PyErr Json := do
  let a ← pyGetKey data "content"
  let b ← pyGetIdx a 0
  pyGetKey b "text"

/-- `_get_anthropic_response` after the POST. -/
def anthropicResponse (status : Nat) (data : Json) : Except PyErr Json := do
  let _ ← raise_for_status status
  anthropicExtract data

/-- Reply extraction for the Google family:
`data["candidates"][0]["content"]["parts"][0]["text"]`. -/
def googleExtract (data : Json) : Except PyErr Json := do
  let a ← pyGetKey data "candidates"
  let b ← pyGetIdx a 0
  let c ← pyGetKey b "content"
  let d ← pyGetKey c "parts"
  let e ← pyGetIdx d 0
  pyGetKey e "text"

/-- The `except (KeyError, IndexError)` branch of `_get_google_response`
(`openrouter.py` lines 162-166): `if "error" in data`, raise
`Exception(f"Google API Error: \x7bdata['error'].get('message', str(data['error']))\x7d")`;
`.get` exists only on dicts (anything else raises `AttributeError`);
otherwise raise `Exception(f"Unexpected response format: \x7bdata\x7d")`. -/
def googleErrorBranch (data : Json) : Except PyErr Json :=
  match pyInStr "error" data with
  | .error e => .error e
  | .ok true =>
      match pyGetKey data "error" with
      | .error e => .error e
      | .ok errv =>
          match errv with
          | .obj ekvs =>
              .error (.exc ("Google API Error: " ++ pyStr ((ekvs.lookup "message").getD errv)))
          | _ => .error .attributeError
  | .ok false => .error (.exc ("Unexpected response format: " ++ pyStr data))

/-- The `try/except` of `_get_google_response` (lines 160-166): only
`KeyError` and `IndexError` from the extraction are caught; any other
exception (e.g. `TypeError` from subscripting a non-subscriptable value)
propagates. -/
def googleParse (data : Json) : Except PyErr Json :=
  match googleExtract data with
  | .ok v => .ok v
  | .error .keyError => googleErrorBranch data
  | .error .indexError => googleErrorBranch data
  | .error e => .error e

/-- `_get_google_response` after the POST. -/
def googleResponse (status : Nat) (data : Json) : Except PyErr Json := do
  let _ ← raise_for_status status
  googleParse data

/-- The response shape handling of `_get_huggingface_response`
(`openrouter.py` lines 192-197): if the body is a non-empty list and
`"generated_text" in data[0]`, return `data[0]["generated_text"]`;
otherwise return `str(data)`.  The membership test itself follows Python
semantics (`TypeError` on a non-iterable first element). -/
def hfParse : Json → Except PyErr Json
  | .arr (x :: rest) =>
      match pyInStr "generated_text" x with
      | .error e => .error e
      | .ok true =>
          match pyGetKey x "generated_text" with
          | .ok v => .ok v
          | .error e => .error e
      | .ok false => .ok (.str (pyStr (.arr (x :: rest))))
  | data => .ok (.str (pyStr data))

/-- `_get_huggingface_response` after the POST. -/
def hfResponse (status : Nat) (data : Json) : Except PyErr Json := do
  let _ ← raise_for_status status
  hfParse data

/-- The provider-family dispatch of `get_response` (`openrouter.py` lines
69-77), restricted to the response-handling part: substring match on the
provider display name, defaulting to the OpenAI-compatible family. -/
def getResponseResult (provider_name : String) (status : Nat) (data : Json) :
    Except PyErr Json :=
  if strContainsSub provider_name "Anthropic" then anthropicResponse status data
  else if strContainsSub provider_name "Google" then googleResponse status data
  else if strContainsSub provider_name "HuggingFace" then hfResponse status data
  else openaiCompatibleResponse status data

/-! ## History display (`src/utils/commands.py`, `show_history`) -/

/-- The display form of one message body (`commands.py` lines 118-120):
`if len(content) > 100: content = content[:97] + "..."`.  This rebinds a
local variable only; the stored message is untouched. -/
def displayContent (content : String) : String :=
  if content.length > 100 then content.take 97 ++ "..." else content

/-- Python `str.capitalize`: first character upper-cased, the rest
lower-cased. -/
def pyCapitalize (s : String) : String :=
  match s.data with
  | [] => ""
  | c :: rest => String.mk (c.toUpper :: rest.map Char.toLower)

/-- The rows `show_history` adds to its table (`commands.py` lines
114-123): one `(capitalized role, display content)` pair per stored
message, in order.  `show_history` is a pure rendering of the transcript;
it returns rows and leaves the transcript as it is. -/
def showHistoryRows (chat_history : List Message) : List (String × String) :=
  chat_history.map fun m => (pyCapitalize m.role, displayContent m.content)

/-! ## Chat loop (`src/termchat.py`, `main`) -/

/-- The `CUSTOM_REPLIES` table of `src/utils/env_manager.py` (lines 66-85). -/
def CUSTOM_REPLIES : List (String × String) :=
  [("hello", "Hello! Main aapki madad ke liye taiyaar hu. Kya main aapki koi madad kar sakta hu?"),
   ("hi", "Hi! Kaise madad kar sakta hu?"),
   ("hey", "Hey there! Kya help chahiye?"),
   ("help", "Available Commands:\n• /clear - Clear chat history\n• /exit or /quit - Exit application\n• /addapi - Add new LLM provider API key\n• /switch - Switch between saved LLM providers\n• /deleteapi - Delete saved API key\n• /help - Show this help message\n\nAsk me anything!"),
   ("bye", "Goodbye! Phir milenge! 👋"),
   ("goodbye", "Goodbye! Dhanyavaad! 👋"),
   ("thanks", "Aapka swagat hai! 😊"),
   ("thank you", "Koi baat nahi! Khushi hui madad karke! 😊"),
   ("ok", "Theek hai! Aur kuch chahiye?"),
   ("okay", "Bilkul! Aur kya help chahiye?")]

/-- The rollback of `main` (`termchat.py` lines 153-155):
`if chat_history and chat_history[-1]["role"] == "user": chat_history.pop()`. -/
def popIfLastUser (chat_history : List Message) : List Message :=
  match chat_history.getLast? with
  | some m => if m.role = "user" then chat_history.dropLast else chat_history
  | none => chat_history

/-- The effect of `handle_command` (`commands.py` lines 37-74) on the
transcript: the first whitespace-delimited token is lower-cased; `/clear`
empties the history and every other command leaves it unchanged.  No
command performs a network call. -/
def commandHistoryEffect (command : String) (chat_history : List Message) :
    List Message :=
  let cmd := pyLower ((pySplitWs command).headD "")
  if cmd = "/clear" then [] else chat_history

/-- The observable outcome of one iteration of the chat loop. -/
structure TurnResult where
  history : List Message
  networkCalled : Bool
  displayed : Option String
deriving DecidableEq, Repr

/-- One iteration of `main`'s chat loop (`termchat.py` lines 84-155),
parametrised by the adapter call `get_response` (the network boundary):
  1. an input starting with `/` goes to the command dispatcher;
  2. otherwise, if `user_input.lower().strip()` is a key of
     `CUSTOM_REPLIES`, the canned reply is displayed and the loop
     continues without touching the transcript;
  3. otherwise the user message is appended, the adapter is called, and on
     success the assistant reply is appended while on failure the
     just-appended user message is rolled back. -/
def loopTurn (get_response : List Message → Except PyErr String)
    (chat_history : List Message) (user_input : String) : TurnResult :=
  if pyStartsWith user_input "/" then
    { history := commandHistoryEffect user_input chat_history
      networkCalled := false
      displayed := none }
  else
    match CUSTOM_REPLIES.lookup (pyStrip (pyLower user_input)) with
    | some reply =>
        { history := chat_history, networkCalled := false, displayed := some reply }
    | none =>
        let h1 := chat_history ++ [{ role := "user", content := user_input }]
        match get_response h1 with
        | .ok response =>
            { history := h1 ++ [{ role := "assistant", content := response }]
              networkCalled := true
              displayed := some response }
        | .error _ =>
            { history := popIfLastUser h1, networkCalled := true, displayed := none }

/-! ## Credential store (`src/utils/env_manager.py`) -/

/-- A flat string-keyed store: both the process environment (`os.environ`)
and the parsed `.env` file are views of this shape. -/
abbrev Store : Type := String → Option String

/-- One registry entry of `LLM_PROVIDERS` (without the runtime
credential). -/
structure ProviderInfo where
  name : String
  env_key : String
  api_url : String
  model : String
deriving DecidableEq, Repr

/-- The `LLM_PROVIDERS` registry (`env_manager.py` lines 14-63). -/
def LLM_PROVIDERS : List (String × ProviderInfo) :=
  [("1", { name := "Google (Gemini)", env_key := "GOOGLE_API_KEY",
           api_url := "https://generativelanguage.googleapis.com/v1beta/models/",
           model := "gemini-2.5-pro" }),
   ("2", { name := "OpenRouter", env_key := "OPENROUTER_API_KEY",
           api_url := "https://openrouter.ai/api/v1/chat/completions",
           model := "openai/gpt-oss-20b:free" }),
   ("3", { name := "OpenAI", env_key := "OPENAI_API_KEY",
           api_url := "https://api.openai.com/v1/chat/completions",
           model := "gpt-3.5-turbo" }),
   ("4", { name := "Anthropic (Claude)", env_key := "ANTHROPIC_API_KEY",
           api_url := "https://api.anthropic.com/v1/messages",
           model := "claude-3-sonnet-20240229" }),
   ("5", { name := "xAI (Grok)", env_key := "XAI_API_KEY",
           api_url := "https://api.x.ai/v1/chat/completions",
           model := "grok-beta" }),
   ("6", { name := "DeepSeek", env_key := "DEEPSEEK_API_KEY",
           api_url := "https://api.deepseek.com/v1/chat/completions",
           model := "deepseek-chat" }),
   ("7", { name := "Qwen", env_key := "QWEN_API_KEY",
           api_url := "https://dashscope.aliyuncs.com/api/v1/services/aigc/text-generation/generation",
           model := "qwen-turbo" }),
   ("8", { name := "HuggingFace", env_key := "HUGGINGFACE_API_KEY",
           api_url := "https://api-inference.huggingface.co/models/",
           model := "mistralai/Mistral-7B-Instruct-v0.2" })]

/-- `dotenv.unset_key`: removes a key from the `.env` FILE.  It does not
touch the process environment (`os.environ`). -/
def unset_key (store : Store) (k : String) : Store :=
  fun k2 => if k2 = k then none else store k2

/-- `dotenv.load_dotenv(override=True)`: every key present in the file
overwrites the process environment; keys absent from the file are left in
the process environment untouched (python-dotenv never deletes a
variable). -/
def load_dotenv_override (procEnv file : Store) : Store :=
  fun k => match file k with
    | some v => some v
    | none => procEnv k

/-- A resolved active-provider configuration as returned by
`get_active_provider`. -/
structure ProviderConfig where
  name : String
  env_key : String
  api_url : String
  model : String
  api_key : String
deriving DecidableEq, Repr

/-- `EnvManager.get_active_provider` (`env_manager.py` lines 494-514).  All
reads go through `os.getenv`, i.e. the process environment.  Python
truthiness: an absent or empty string is falsy. -/
def get_active_provider (env : Store) : Option ProviderConfig :=
  match env "ACTIVE_PROVIDER" with
  | none => none
  | some active_id =>
      if active_id = "" then none
      else
        match LLM_PROVIDERS.lookup active_id with
        | none => none
        | some p =>
            let model_key := pyReplace p.env_key "_API_KEY" "_MODEL"
            let model := match env model_key with
              | some m => if m = "" then p.model else m
              | none => p.model
            match env p.env_key with
            | none => none
            | some k =>
                if k = "" then none
                else some { name := p.name, env_key := p.env_key,
                            api_url := p.api_url, model := model, api_key := k }

/-- The deletion core of `EnvManager.delete_api_key` (`env_manager.py`
lines 458-469), after the interactive selection of `provider_id` and the
confirmation: the credential key and model key are removed from the `.env`
file with `unset_key`, and, if the deleted provider is the active one
(`active_provider = os.getenv("ACTIVE_PROVIDER")`, line 420, read from the
process environment), both active markers are also removed from the file.
The function returns the new FILE contents; the process environment is not
modified by any of these calls. -/
def delete_api_key_file (procEnv file : Store) (provider_id : String) : Store :=
  match LLM_PROVIDERS.lookup provider_id with
  | none => file
  | some p =>
      let f1 := unset_key file p.env_key
      let f2 := unset_key f1 (pyReplace p.env_key "_API_KEY" "_MODEL")
      if procEnv "ACTIVE_PROVIDER" = some provider_id then
        unset_key (unset_key f2 "ACTIVE_PROVIDER") "ACTIVE_PROVIDER_NAME"
      else f2

/-! ## Concrete fixtures used by counterexamples and witnesses -/

/-- A process environment in which provider "1" (Google) is active and has
a stored credential; used to exercise `delete_api_key`. -/
def demoProcEnv : Store := fun k =>
  if k = "ACTIVE_PROVIDER" then some "1"
  else if k = "ACTIVE_PROVIDER_NAME" then some "Google (Gemini)"
  else if k = "GOOGLE_API_KEY" then some "test-key"
  else none

/-- The `.env` file after `delete_api_key` removes provider "1" while it is
active, starting from a file that mirrors `demoProcEnv`. -/
def demoDeletedFile : Store := delete_api_key_file demoProcEnv demoProcEnv "1"

/-- The provider configuration that `get_active_provider` resolves from
`demoProcEnv`. -/
def googleDemoConfig : ProviderConfig :=
  { name := "Google (Gemini)", env_key := "GOOGLE_API_KEY",
    api_url := "https://generativelanguage.googleapis.com/v1beta/models/",
    model := "gemini-2.5-pro", api_key := "test-key" }

/-- A 150-character message body. -/
def msg150 : String := String.mk (List.replicate 150 'a')

/-- The last system message's content in a transcript, if any (statement
vocabulary for the Anthropic system-field characterisation). -/
def lastSystemContent (msgs : List Message) : Option String :=
  ((msgs.filter (fun m => m.role == "system")).map Message.content).getLast?

/-! ## Theorems -/

theorem getLastD_eq_or_mem {α : Type} (l : List α) (d : α) :
    l.getLastD d = d ∨ l.getLastD d ∈ l := by
  induction l generalizing d with
  | nil => exact Or.inl rfl
  | cons a t ih =>
      rw [List.getLastD_cons]
      rcases ih a with h | h
      · exact Or.inr (by rw [h]; exact List.mem_cons_self _ _)
      · exact Or.inr (List.mem_cons_of_mem _ h)

/-- Claim C1 (counterexample): on a transcript holding one system message,
the code's Google request builder emits role "model" while the claimed
translation ("assistant" to "model", everything else to "user") emits
role "user"; the two request bodies differ. -/
theorem google_role_translation_cex :
    googleContents [{ role := "system", content := "be brief" }] ≠
      specGoogleContents [{ role := "system", content := "be brief" }] ∧
    (googleContents [{ role := "system", content := "be brief" }]).map
      GoogleContent.role = ["model"] ∧
    (specGoogleContents [{ role := "system", content := "be brief" }]).map
      GoogleContent.role = ["user"] := by
  decide

/-- Claim C1 (amended): the Google request builder maps each message, in
order, to an object whose parts list is exactly the single text part with
the message content, and whose role is "user" exactly when the source role
is "user" and "model" for every other role (including "system" and
"assistant"). -/
theorem google_role_translation (msgs : List Message) :
    List.Forall₂ (fun (m : Message) (c : GoogleContent) =>
      c.parts = [{ text := m.content }] ∧
      (m.role = "user" → c.role = "user") ∧
      (m.role ≠ "user" → c.role = "model")) msgs (googleContents msgs) := by
  induction msgs with
  | nil => simp [googleContents]
  | cons m rest ih =>
      simp only [googleContents, List.map_cons] at ih ⊢
      refine List.Forall₂.cons ⟨rfl, ?_, ?_⟩ ih
      · intro h; simp [h]
      · intro h; simp [h]

theorem google_role_translation_witness :
    List.Forall₂ (fun (m : Message) (c : GoogleContent) =>
      c.parts = [{ text := m.content }] ∧
      (m.role = "user" → c.role = "user") ∧
      (m.role ≠ "user" → c.role = "model"))
      [{ role := "user", content := "hi" }, { role := "assistant", content := "yo" }]
      (googleContents
        [{ role := "user", content := "hi" }, { role := "assistant", content := "yo" }]) :=
  google_role_translation _

/-- Claim C2: when the adapter call fails on a non-command, non-canned
input, the chat loop's rollback pops the just-appended user message, so
the transcript after the turn equals the transcript before it and no
reply is displayed. -/
theorem adapter_error_rollback (f : List Message → Except PyErr String)
    (history : List Message) (u : String) (e : PyErr)
    (hcmd : pyStartsWith u "/" = false)
    (hcanned : CUSTOM_REPLIES.lookup (pyStrip (pyLower u)) = none)
    (herr : f (history ++ [{ role := "user", content := u }]) = .error e) :
    (loopTurn f history u).history = history ∧
    (loopTurn f history u).displayed = none := by
  unfold loopTurn
  rw [hcmd]
  simp only [Bool.false_eq_true, if_false, hcanned, herr]
  constructor
  · simp [popIfLastUser, List.getLast?_concat, List.dropLast_concat]
  · trivial

theorem adapter_error_rollback_witness :
    (loopTurn (fun _ => .error (.httpError 500)) [] "what is lean").history = [] ∧
    (loopTurn (fun _ => .error (.httpError 500)) [] "what is lean").displayed = none :=
  adapter_error_rollback (fun _ => .error (.httpError 500)) [] "what is lean"
    (.httpError 500) (by decide) (by decide) rfl

/-- Claim C9: a non-command input whose lower-cased, stripped form is a key
of the canned-reply table short-circuits the turn: the canned reply is
displayed, no network call happens, and the transcript is left exactly as
it was (neither the input nor the reply is appended). -/
theorem canned_reply_shortcircuit (f : List Message → Except PyErr String)
    (history : List Message) (u reply : String)
    (hcmd : pyStartsWith u "/" = false)
    (hcanned : CUSTOM_REPLIES.lookup (pyStrip (pyLower u)) = some reply) :
    loopTurn f history u =
      { history := history, networkCalled := false, displayed := some reply } := by
  unfold loopTurn
  rw [hcmd]
  simp only [Bool.false_eq_true, if_false, hcanned]

theorem canned_reply_shortcircuit_witness :
    loopTurn (fun _ => .ok "ignored") [{ role := "user", content := "x" }] "  Hello " =
      { history := [{ role := "user", content := "x" }], networkCalled := false,
        displayed := some "Hello! Main aapki madad ke liye taiyaar hu. Kya main aapki koi madad kar sakta hu?" } :=
  canned_reply_shortcircuit (fun _ => .ok "ignored") [{ role := "user", content := "x" }]
    "  Hello " _ (by decide) rfl

/-- Claim C5: for every provider family (and hence for the full
`get_response` dispatch, whatever the provider name), an HTTP status in
the `raise_for_status` error range [400, 600) makes the handler fail with
that HTTP error, for every response body — so no field of the body is
examined before the status check. -/
theorem http_error_precedes_parsing (provider_name : String) (status : Nat)
    (data : Json) (h1 : 400 ≤ status) (h2 : status < 600) :
    openaiCompatibleResponse status data = .error (.httpError status) ∧
    anthropicResponse status data = .error (.httpError status) ∧
    googleResponse status data = .error (.httpError status) ∧
    hfResponse status data = .error (.httpError status) ∧
    getResponseResult provider_name status data = .error (.httpError status) := by
  have hr : raise_for_status status = .error (.httpError status) := by
    simp [raise_for_status, h1, h2]
  have ho : openaiCompatibleResponse status data = .error (.httpError status) := by
    simp [openaiCompatibleResponse, hr, Bind.bind, Except.bind]
  have ha : anthropicResponse status data = .error (.httpError status) := by
    simp [anthropicResponse, hr, Bind.bind, Except.bind]
  have hg : googleResponse status data = .error (.httpError status) := by
    simp [googleResponse, hr, Bind.bind, Except.bind]
  have hh : hfResponse status data = .error (.httpError status) := by
    simp [hfResponse, hr, Bind.bind, Except.bind]
  refine ⟨ho, ha, hg, hh, ?_⟩
  unfold getResponseResult
  split_ifs <;> assumption

theorem http_error_precedes_parsing_witness :
    openaiCompatibleResponse 500 (.obj []) = .error (.httpError 500) ∧
    anthropicResponse 500 (.obj []) = .error (.httpError 500) ∧
    googleResponse 500 (.obj []) = .error (.httpError 500) ∧
    hfResponse 500 (.obj []) = .error (.httpError 500) ∧
    getResponseResult "OpenAI" 500 (.obj []) = .error (.httpError 500) :=
  http_error_precedes_parsing "OpenAI" 500 (.obj []) (by decide) (by decide)

theorem anthropicSplit_messages (msgs : List Message) (sys : String)
    (acc : List Message) :
    (anthropicSplit msgs sys acc).2 =
      acc ++ msgs.filter (fun m => !(m.role == "system")) := by
  induction msgs generalizing sys acc with
  | nil => simp [anthropicSplit]
  | cons m rest ih =>
      by_cases h : m.role = "system"
      · simp [anthropicSplit, h, ih]
      · simp [anthropicSplit, h, ih, List.filter_cons]

theorem anthropicSplit_system (msgs : List Message) (sys : String)
    (acc : List Message) :
    (anthropicSplit msgs sys acc).1 =
      ((msgs.filter (fun m => m.role == "system")).map Message.content).getLastD sys := by
  induction msgs generalizing sys acc with
  | nil => rfl
  | cons m rest ih =>
      by_cases h : m.role = "system"
      · have h1 : anthropicSplit (m :: rest) sys acc = anthropicSplit rest m.content acc := by
          simp [anthropicSplit, h]
        have h2 : (m :: rest).filter (fun m => m.role == "system") =
            m :: rest.filter (fun m => m.role == "system") := by
          simp [List.filter_cons, h]
        rw [h1, ih, h2, List.map_cons, List.getLastD_cons]
      · have h1 : anthropicSplit (m :: rest) sys acc =
            anthropicSplit rest sys (acc ++ [m]) := by
          simp [anthropicSplit, h]
        have h2 : (m :: rest).filter (fun m => m.role == "system") =
            rest.filter (fun m => m.role == "system") := by
          simp [List.filter_cons, h]
        rw [h1, ih, h2]

/-- Claim C4: the Anthropic request body contains no system-role entry in
its messages list — the messages list is exactly the non-system messages
of the transcript in their original order, hence (for well-formed roles)
user/assistant only; max_tokens is exactly 4096; and whatever the
top-level system field carries is the content of a system message of the
transcript. -/
theorem anthropic_request_shape (model : String) (msgs : List Message)
    (hroles : ∀ m ∈ msgs, m.role = "user" ∨ m.role = "assistant" ∨ m.role = "system") :
    (anthropicBody model msgs).messages =
      msgs.filter (fun m => !(m.role == "system")) ∧
    (∀ m ∈ (anthropicBody model msgs).messages, m.role ≠ "system") ∧
    (∀ m ∈ (anthropicBody model msgs).messages,
      m.role = "user" ∨ m.role = "assistant") ∧
    (anthropicBody model msgs).max_tokens = 4096 ∧
    (∀ s, (anthropicBody model msgs).system = some s →
      ∃ m ∈ msgs, m.role = "system" ∧ m.content = s) := by
  have hmsg : (anthropicBody model msgs).messages =
      msgs.filter (fun m => !(m.role == "system")) := by
    simp [anthropicBody, anthropicSplit_messages]
  refine ⟨hmsg, ?_, ?_, rfl, ?_⟩
  · intro m hm
    rw [hmsg] at hm
    have := List.of_mem_filter hm
    simpa using this
  · intro m hm
    rw [hmsg] at hm
    have h1 := List.of_mem_filter hm
    have h2 := hroles m (List.mem_of_mem_filter hm)
    rcases h2 with h | h | h
    · exact Or.inl h
    · exact Or.inr h
    · simp [h] at h1
  · intro s hs
    have h0 : (anthropicBody model msgs).system =
        (if (anthropicSplit msgs "" []).1 = "" then none
         else some (anthropicSplit msgs "" []).1) := rfl
    rw [h0, anthropicSplit_system] at hs
    set l := (msgs.filter (fun m => m.role == "system")).map Message.content with hl
    by_cases hemp : l.getLastD "" = ""
    · rw [if_pos hemp] at hs
      exact Option.noConfusion hs
    · rw [if_neg hemp] at hs
      have hmem : l.getLastD "" ∈ l := by
        rcases getLastD_eq_or_mem l "" with h | h
        · exact absurd h hemp
        · exact h
      rw [hl] at hmem
      obtain ⟨m, hmf, hmc⟩ := List.mem_map.mp hmem
      refine ⟨m, List.mem_of_mem_filter hmf, ?_, ?_⟩
      · simpa using List.of_mem_filter hmf
      · rw [hmc]
        exact Option.some.inj hs

theorem anthropic_request_shape_witness :
    (anthropicBody "claude-3-sonnet-20240229"
        [{ role := "system", content := "be brief" },
         { role := "user", content := "hi" }]).messages =
      [{ role := "user", content := "hi" }] ∧
    (anthropicBody "claude-3-sonnet-20240229"
        [{ role := "system", content := "be brief" },
         { role := "user", content := "hi" }]).max_tokens = 4096 := by
  have h := anthropic_request_shape "claude-3-sonnet-20240229"
    [{ role := "system", content := "be brief" },
     { role := "user", content := "hi" }] (by decide)
  exact ⟨by rw [h.1]; decide, h.2.2.2.1⟩

/-- Claim C10 (counterexample): on the transcript
[system "A", system ""] — two system messages, the last one empty — the
code produces a request body with NO system field, not a system field
holding the last system message's content; so "keeps the content of the
last system message as the top-level system field" fails as stated. -/
theorem anthropic_system_last_cex :
    (anthropicBody "claude-3-sonnet-20240229"
        [{ role := "system", content := "A" },
         { role := "system", content := "" }]).system = none ∧
    (none : Option String) ≠ some "" := by
  decide

/-- Claim C10 (amended): the top-level system field is determined by the
content of the LAST system message alone — it equals that content when it
is non-empty and is absent when the last system message is empty or there
is no system message; the contents of all earlier system messages are
dropped (they influence neither the system field, which depends only on
the last one, nor the messages list, which keeps no system entries).  In
particular a transcript whose system messages are all empty produces no
system field. -/
theorem anthropic_system_last_wins (model : String) (msgs : List Message) :
    ((anthropicBody model msgs).system =
      match lastSystemContent msgs with
      | none => none
      | some c => if c = "" then none else some c) ∧
    (anthropicBody model msgs).messages =
      msgs.filter (fun m => !(m.role == "system")) ∧
    ((∀ m ∈ msgs, m.role = "system" → m.content = "") →
      (anthropicBody model msgs).system = none) := by
  have hsys : (anthropicBody model msgs).system =
      match lastSystemContent msgs with
      | none => none
      | some c => if c = "" then none else some c := by
    have h0 : (anthropicBody model msgs).system =
        (if (anthropicSplit msgs "" []).1 = "" then none
         else some (anthropicSplit msgs "" []).1) := rfl
    rw [h0, anthropicSplit_system, List.getLastD_eq_getLast?]
    unfold lastSystemContent
    cases h : ((msgs.filter (fun m => m.role == "system")).map Message.content).getLast? with
    | none => simp
    | some c => simp
  refine ⟨hsys, by simp [anthropicBody, anthropicSplit_messages], ?_⟩
  intro hall
  rw [hsys]
  cases h : lastSystemContent msgs with
  | none => simp
  | some c =>
      have hc : c = "" := by
        have hmem : c ∈ (msgs.filter (fun m => m.role == "system")).map Message.content := by
          unfold lastSystemContent at h
          exact List.mem_of_mem_getLast? h
        obtain ⟨m, hmf, hmc⟩ := List.mem_map.mp hmem
        have hrole : m.role = "system" := by simpa using List.of_mem_filter hmf
        rw [← hmc]
        exact hall m (List.mem_of_mem_filter hmf) hrole
      simp [hc]

theorem anthropic_system_last_wins_witness :
    (anthropicBody "claude-3-sonnet-20240229"
        [{ role := "system", content := "A" },
         { role := "system", content := "B" },
         { role := "user", content := "hi" }]).system = some "B" := by
  have h := anthropic_system_last_wins "claude-3-sonnet-20240229"
    [{ role := "system", content := "A" },
     { role := "system", content := "B" },
     { role := "user", content := "hi" }]
  rw [h.1]
  decide

set_option maxRecDepth 10000 in
/-- Claim C3 (counterexample): a 150-character message body displays as
its first 97 characters followed by the three-character marker "...", for
100 characters in total — NOT as 100 visible characters plus an ellipsis
marker: the displayed string differs from (first 100 characters ++ "..."),
which would be 103 characters long. -/
theorem history_truncation_cex :
    displayContent msg150 ≠ msg150.take 100 ++ "..." ∧
    displayContent msg150 = msg150.take 97 ++ "..." ∧
    (displayContent msg150).length = 100 ∧
    (msg150.take 100 ++ "...").length = 103 := by
  decide

/-- Claim C3 (amended): for every stored message of content length 150,
the history display row shows the first 97 characters of the content plus
the three-character ellipsis marker "..." (100 characters in total,
marker included); the display is a pure function of the transcript, and
the stored content still has length 150. -/
theorem history_truncation (h : List Message) (m : Message)
    (hm : m ∈ h) (hlen : m.content.length = 150) :
    (pyCapitalize m.role, displayContent m.content) ∈ showHistoryRows h ∧
    displayContent m.content = m.content.take 97 ++ "..." ∧
    (displayContent m.content).length = 100 ∧
    m.content.length = 150 := by
  have htr : displayContent m.content = m.content.take 97 ++ "..." := by
    unfold displayContent
    rw [if_pos (by omega)]
  refine ⟨?_, htr, ?_, hlen⟩
  · unfold showHistoryRows
    exact List.mem_map_of_mem _ hm
  · have hd : m.content.data.length = 150 := hlen
    have h3 : "...".length = 3 := rfl
    rw [htr, String.length_append, String.take_eq, String.length_mk,
      List.length_take, h3]
    omega

theorem history_truncation_witness :
    (pyCapitalize "user", displayContent msg150) ∈
      showHistoryRows [{ role := "user", content := msg150 }] ∧
    displayContent msg150 = msg150.take 97 ++ "..." ∧
    (displayContent msg150).length = 100 ∧
    msg150.length = 150 :=
  history_truncation [{ role := "user", content := msg150 }]
    { role := "user", content := msg150 } (List.mem_singleton.mpr rfl) rfl

/-- Claim C6: removing the active provider's credential with
delete_api_key clears both active markers (and the credential and model
keys) in the persisted .env FILE — but, because python-dotenv's unset_key
edits only the file while get_active_provider reads through os.getenv,
and load_dotenv(override=True) never removes variables that are absent
from the file, a subsequent get_active_provider call in the same process
still returns the full Google provider configuration rather than "none",
even after the chat loop's reload. The code's own success message
("there is no active provider any more") contradicts this behaviour. -/
theorem delete_active_provider_stale :
    demoDeletedFile "ACTIVE_PROVIDER" = none ∧
    demoDeletedFile "ACTIVE_PROVIDER_NAME" = none ∧
    demoDeletedFile "GOOGLE_API_KEY" = none ∧
    demoDeletedFile "GOOGLE_MODEL" = none ∧
    get_active_provider demoProcEnv = some googleDemoConfig ∧
    get_active_provider (load_dotenv_override demoProcEnv demoDeletedFile) =
      some googleDemoConfig := by
  decide

/-- Claim C7 (counterexample): on the successful-status payload
obj [candidates = 5, error = obj [message = "X"]] the reply path is absent
and an error object is present, yet the adapter raises a TypeError — from
subscripting the integer 5, which the except clause (KeyError, IndexError)
does not catch — instead of failing with the error object's message. -/
theorem google_error_cex :
    googleResponse 200 (.obj [("candidates", .num 5),
        ("error", .obj [("message", .str "X")])]) = .error .typeError ∧
    PyErr.typeError ≠ PyErr.exc ("Google API Error: " ++ pyStr (.str "X")) :=
  ⟨rfl, by decide⟩

/-- Claim C7 (amended): whenever extraction of the reply path fails with a
KeyError or IndexError (the caught classes — e.g. a missing key or index,
as opposed to a TypeError from subscripting a non-subscriptable value,
which propagates raw), the adapter distinguishes the two conditions: a
payload whose "error" key holds an object fails with that object's
reported message, a payload with no "error" key fails with the generic
unexpected-shape message, and no message of the first form equals a
message of the second form. -/
theorem google_error_branches (kvs : List (String × Json))
    (hfail : googleExtract (.obj kvs) = .error .keyError ∨
             googleExtract (.obj kvs) = .error .indexError) :
    (∀ ekvs, kvs.lookup "error" = some (.obj ekvs) →
        googleResponse 200 (.obj kvs) =
          .error (.exc ("Google API Error: " ++
            pyStr ((ekvs.lookup "message").getD (.obj ekvs))))) ∧
    (kvs.lookup "error" = none →
        googleResponse 200 (.obj kvs) =
          .error (.exc ("Unexpected response format: " ++ pyStr (.obj kvs)))) ∧
    (∀ a b : String,
      "Google API Error: " ++ a ≠ "Unexpected response format: " ++ b) := by
  have hresp : googleResponse 200 (.obj kvs) = googleParse (.obj kvs) := rfl
  have hparse : googleParse (.obj kvs) = googleErrorBranch (.obj kvs) := by
    rcases hfail with h | h
    · unfold googleParse; rw [h]
    · unfold googleParse; rw [h]
  refine ⟨?_, ?_, ?_⟩
  · intro ekvs hek
    rw [hresp, hparse]
    have hin : pyInStr "error" (Json.obj kvs) = .ok true := by
      simp [pyInStr, hek]
    have hget : pyGetKey (Json.obj kvs) "error" = .ok (Json.obj ekvs) := by
      simp [pyGetKey, hek]
    unfold googleErrorBranch
    rw [hin, hget]
  · intro hek
    rw [hresp, hparse]
    have hin : pyInStr "error" (Json.obj kvs) = .ok false := by
      simp [pyInStr, hek]
    unfold googleErrorBranch
    rw [hin]
  · intro a b hab
    have h1 : (some 'G' : Option Char) = some 'U' :=
      congrArg (fun s : String => s.data.head?) hab
    exact absurd (Option.some.inj h1) (by decide)

theorem google_error_branches_witness :
    googleResponse 200 (.obj [("error", .obj [("message", .str "X")])]) =
      .error (.exc "Google API Error: X") := by
  have h := google_error_branches [("error", .obj [("message", .str "X")])]
    (Or.inl rfl)
  exact h.1 [("message", .str "X")] rfl

/-- Claim C8 (counterexample): the successful-status payload [5] is a list
whose first element lacks the generated_text field, yet the adapter raises
a TypeError — the membership test "generated_text" in 5 is not defined for
an integer — instead of returning the stringified payload. -/
theorem hf_fallback_cex :
    hfResponse 200 (.arr [.num 5]) = .error .typeError ∧
    (Except.error PyErr.typeError : Except PyErr Json) ≠
      .ok (.str (pyStr (.arr [.num 5]))) :=
  ⟨rfl, fun h => Except.noConfusion h⟩

/-- Claim C8 (amended): on every successful-status payload that is not a
non-empty list, and on every non-empty list whose first element supports
the membership test and reports the generated_text field absent (e.g. a
dict without that key, or a string not containing it), the adapter
returns the stringified raw payload and raises nothing.  (If the first
element is not iterable, the membership test itself raises a TypeError,
as the counterexample shows.) -/
theorem hf_stringified_fallback (data : Json)
    (h : ∀ x rest, data = .arr (x :: rest) →
      pyInStr "generated_text" x = .ok false) :
    hfResponse 200 data = .ok (.str (pyStr data)) := by
  have hresp : hfResponse 200 data = hfParse data := rfl
  rw [hresp]
  cases data with
  | arr elems =>
      cases elems with
      | nil => rfl
      | cons x rest =>
          have hx := h x rest rfl
          show (match pyInStr "generated_text" x with
            | Except.error e => Except.error e
            | Except.ok true =>
                match pyGetKey x "generated_text" with
                | Except.ok v => Except.ok v
                | Except.error e => Except.error e
            | Except.ok false =>
                Except.ok (Json.str (pyStr (Json.arr (x :: rest))))) =
            Except.ok (Json.str (pyStr (Json.arr (x :: rest))))
          rw [hx]
  | null => rfl
  | bool b => rfl
  | num n => rfl
  | str s => rfl
  | obj fields => rfl

theorem hf_stringified_fallback_witness :
    hfResponse 200 (.obj [("error", .str "Model overloaded")]) =
      .ok (.str (pyStr (.obj [("error", .str "Model overloaded")]))) :=
  hf_stringified_fallback _ (fun _ _ hx => Json.noConfusion hx)

end TermChat
